import Mathlib

/-!
Shallow embedding of the `serp-market` currency-router pallet
(`src/src/lib.rs`).

The pallet routes every `Stp258Currency` / `Stp258CurrencyReservable`
operation between two backends: `T::Stp258Native` (a single-asset
primitive) when the requested currency id equals
`T::GetStp258NativeId::get()`, and `T::Stp258Currency` (a multi-asset
primitive) otherwise.  Both backends act on the same global runtime
storage, modelled here as an abstract state type `σ`; each backend is a
structure of state-passing functions.  Fallible operations return
`Except DispatchError`; events deposited by the pallet are returned
alongside the successful result.  Balances, account ids and currency ids
are `Nat`.
-/

/-- The pallet errors of `Error<T>` together with opaque backend-level
errors (`DispatchError` values produced by a backend are forwarded
unchanged by the router, so their shape does not matter). -/
inductive DispatchError where
  | balanceTooLow
  | amountIntoBalanceFailed
  | other (code : Nat)
deriving DecidableEq

/-- Embeds `BalanceStatus` from `stp258_traits`: which bucket a repatriation
credits. -/
inductive BalanceStatus where
  | Free
  | Reserved
deriving DecidableEq

/-- Embeds `frame_support::traits::WithdrawReasons`; the adapter only ever uses
`WithdrawReasons::all()`. -/
inductive WithdrawReasons where
  | all
  | some_reasons (mask : Nat)
deriving DecidableEq

/-- Embeds `frame_support::traits::ExistenceRequirement`. -/
inductive ExistenceRequirement where
  | AllowDeath
  | KeepAlive
deriving DecidableEq

/-- The pallet's `Event<T>` (signed amounts of `BalanceUpdated` are
`Int`). -/
inductive Event where
  | Transferred (currency_id from_acc to_acc amount : Nat)
  | BalanceUpdated (currency_id who : Nat) (amount : Int)
  | Deposited (currency_id who amount : Nat)
  | Withdrawn (currency_id who amount : Nat)
deriving DecidableEq

/-- The `Stp258AssetReservable` capability of `T::Stp258Native`: a
single-asset backend (no currency-id argument, no `base_unit`), acting
on the shared runtime state `σ`. -/
structure Stp258AssetIface (σ : Type) where
  minimum_balance : σ → Nat
  total_issuance : σ → Nat
  total_balance : σ → Nat → Nat
  free_balance : σ → Nat → Nat
  ensure_can_withdraw : σ → Nat → Nat → Except DispatchError Unit
  transfer : σ → Nat → Nat → Nat → Except DispatchError σ
  deposit : σ → Nat → Nat → Except DispatchError σ
  withdraw : σ → Nat → Nat → Except DispatchError σ
  can_slash : σ → Nat → Nat → Bool
  slash : σ → Nat → Nat → Nat × σ
  can_reserve : σ → Nat → Nat → Bool
  slash_reserved : σ → Nat → Nat → Nat × σ
  reserved_balance : σ → Nat → Nat
  reserve : σ → Nat → Nat → Except DispatchError σ
  unreserve : σ → Nat → Nat → Nat × σ
  repatriate_reserved : σ → Nat → Nat → Nat → BalanceStatus → Except DispatchError (Nat × σ)

/-- The `Stp258CurrencyReservable` capability of `T::Stp258Currency`:
the multi-asset backend, every operation taking a currency id. -/
structure Stp258CurrencyIface (σ : Type) where
  base_unit : σ → Nat → Nat
  minimum_balance : σ → Nat → Nat
  total_issuance : σ → Nat → Nat
  total_balance : σ → Nat → Nat → Nat
  free_balance : σ → Nat → Nat → Nat
  ensure_can_withdraw : σ → Nat → Nat → Nat → Except DispatchError Unit
  transfer : σ → Nat → Nat → Nat → Nat → Except DispatchError σ
  deposit : σ → Nat → Nat → Nat → Except DispatchError σ
  withdraw : σ → Nat → Nat → Nat → Except DispatchError σ
  can_slash : σ → Nat → Nat → Nat → Bool
  slash : σ → Nat → Nat → Nat → Nat × σ
  can_reserve : σ → Nat → Nat → Nat → Bool
  slash_reserved : σ → Nat → Nat → Nat → Nat × σ
  reserved_balance : σ → Nat → Nat → Nat
  reserve : σ → Nat → Nat → Nat → Except DispatchError σ
  unreserve : σ → Nat → Nat → Nat → Nat × σ
  repatriate_reserved : σ → Nat → Nat → Nat → Nat → BalanceStatus → Except DispatchError (Nat × σ)

/-- The router's configuration (`Config`): the native currency id
(`GetStp258NativeId`) and the two backends. -/
structure RouterCfg (σ : Type) where
  nativeId : Nat
  stp258Native : Stp258AssetIface σ
  stp258Currency : Stp258CurrencyIface σ

variable {σ : Type}

/-- Embeds `Stp258Currency::base_unit` for `Pallet<T>` (lib.rs 130-136). -/
def Pallet.base_unit (cfg : RouterCfg σ) (s : σ) (currency_id : Nat) : Nat :=
  if currency_id = cfg.nativeId then
    cfg.stp258Native.minimum_balance s
  else
    cfg.stp258Currency.base_unit s currency_id

/-- Embeds `Stp258Currency::minimum_balance` for `Pallet<T>` (lib.rs 138-144). -/
def Pallet.minimum_balance (cfg : RouterCfg σ) (s : σ) (currency_id : Nat) : Nat :=
  if currency_id = cfg.nativeId then
    cfg.stp258Native.minimum_balance s
  else
    cfg.stp258Currency.minimum_balance s currency_id

/-- Embeds `Stp258Currency::total_issuance` for `Pallet<T>` (lib.rs 146-152). -/
def Pallet.total_issuance (cfg : RouterCfg σ) (s : σ) (currency_id : Nat) : Nat :=
  if currency_id = cfg.nativeId then
    cfg.stp258Native.total_issuance s
  else
    cfg.stp258Currency.total_issuance s currency_id

/-- Embeds `Stp258Currency::total_balance` for `Pallet<T>` (lib.rs 154-160). -/
def Pallet.total_balance (cfg : RouterCfg σ) (s : σ) (currency_id who : Nat) : Nat :=
  if currency_id = cfg.nativeId then
    cfg.stp258Native.total_balance s who
  else
    cfg.stp258Currency.total_balance s currency_id who

/-- Embeds `Stp258Currency::free_balance` for `Pallet<T>` (lib.rs 162-168). -/
def Pallet.free_balance (cfg : RouterCfg σ) (s : σ) (currency_id who : Nat) : Nat :=
  if currency_id = cfg.nativeId then
    cfg.stp258Native.free_balance s who
  else
    cfg.stp258Currency.free_balance s currency_id who

/-- Embeds `Stp258Currency::ensure_can_withdraw` for `Pallet<T>`
(lib.rs 170-176). -/
def Pallet.ensure_can_withdraw (cfg : RouterCfg σ) (s : σ) (currency_id who amount : Nat) :
    Except DispatchError Unit :=
  if currency_id = cfg.nativeId then
    cfg.stp258Native.ensure_can_withdraw s who amount
  else
    cfg.stp258Currency.ensure_can_withdraw s currency_id who amount

/-- The backend-selection step of `transfer` (lib.rs 187-191): the `?`
call into the chosen backend. -/
def Pallet.routedTransfer (cfg : RouterCfg σ) (s : σ) (currency_id from_acc to_acc amount : Nat) :
    Except DispatchError σ :=
  if currency_id = cfg.nativeId then
    cfg.stp258Native.transfer s from_acc to_acc amount
  else
    cfg.stp258Currency.transfer s currency_id from_acc to_acc amount

/-- Embeds `Stp258Currency::transfer` for `Pallet<T>` (lib.rs 178-194): zero
amount or self transfer returns `Ok(())` at once; otherwise the routed
backend call, then `deposit_event(Transferred(..))` on success. -/
def Pallet.transfer (cfg : RouterCfg σ) (s : σ) (currency_id from_acc to_acc amount : Nat) :
    Except DispatchError (σ × List Event) :=
  if amount = 0 ∨ from_acc = to_acc then
    Except.ok (s, [])
  else
    match Pallet.routedTransfer cfg s currency_id from_acc to_acc amount with
    | Except.error e => Except.error e
    | Except.ok s1 =>
        Except.ok (s1, [Event.Transferred currency_id from_acc to_acc amount])

/-- The backend-selection step of `deposit` (lib.rs 200-204). -/
def Pallet.routedDeposit (cfg : RouterCfg σ) (s : σ) (currency_id who amount : Nat) :
    Except DispatchError σ :=
  if currency_id = cfg.nativeId then
    cfg.stp258Native.deposit s who amount
  else
    cfg.stp258Currency.deposit s currency_id who amount

/-- Embeds `Stp258Currency::deposit` for `Pallet<T>` (lib.rs 196-207). -/
def Pallet.deposit (cfg : RouterCfg σ) (s : σ) (currency_id who amount : Nat) :
    Except DispatchError (σ × List Event) :=
  if amount = 0 then
    Except.ok (s, [])
  else
    match Pallet.routedDeposit cfg s currency_id who amount with
    | Except.error e => Except.error e
    | Except.ok s1 => Except.ok (s1, [Event.Deposited currency_id who amount])

/-- The backend-selection step of `withdraw` (lib.rs 213-217). -/
def Pallet.routedWithdraw (cfg : RouterCfg σ) (s : σ) (currency_id who amount : Nat) :
    Except DispatchError σ :=
  if currency_id = cfg.nativeId then
    cfg.stp258Native.withdraw s who amount
  else
    cfg.stp258Currency.withdraw s currency_id who amount

/-- Embeds `Stp258Currency::withdraw` for `Pallet<T>` (lib.rs 209-220). -/
def Pallet.withdraw (cfg : RouterCfg σ) (s : σ) (currency_id who amount : Nat) :
    Except DispatchError (σ × List Event) :=
  if amount = 0 then
    Except.ok (s, [])
  else
    match Pallet.routedWithdraw cfg s currency_id who amount with
    | Except.error e => Except.error e
    | Except.ok s1 => Except.ok (s1, [Event.Withdrawn currency_id who amount])

/-- Embeds `Stp258Currency::can_slash` for `Pallet<T>` (lib.rs 222-228). -/
def Pallet.can_slash (cfg : RouterCfg σ) (s : σ) (currency_id who amount : Nat) : Bool :=
  if currency_id = cfg.nativeId then
    cfg.stp258Native.can_slash s who amount
  else
    cfg.stp258Currency.can_slash s currency_id who amount

/-- Embeds `Stp258Currency::slash` for `Pallet<T>` (lib.rs 230-236): returns
the unslashed gap together with the updated state; never fails. -/
def Pallet.slash (cfg : RouterCfg σ) (s : σ) (currency_id who amount : Nat) : Nat × σ :=
  if currency_id = cfg.nativeId then
    cfg.stp258Native.slash s who amount
  else
    cfg.stp258Currency.slash s currency_id who amount

/-- Embeds `Stp258CurrencyReservable::can_reserve` for `Pallet<T>`
(lib.rs 240-246). -/
def Pallet.can_reserve (cfg : RouterCfg σ) (s : σ) (currency_id who value : Nat) : Bool :=
  if currency_id = cfg.nativeId then
    cfg.stp258Native.can_reserve s who value
  else
    cfg.stp258Currency.can_reserve s currency_id who value

/-- Embeds `Stp258CurrencyReservable::slash_reserved` for `Pallet<T>`
(lib.rs 248-254). -/
def Pallet.slash_reserved (cfg : RouterCfg σ) (s : σ) (currency_id who value : Nat) : Nat × σ :=
  if currency_id = cfg.nativeId then
    cfg.stp258Native.slash_reserved s who value
  else
    cfg.stp258Currency.slash_reserved s currency_id who value

/-- Embeds `Stp258CurrencyReservable::reserved_balance` for `Pallet<T>`
(lib.rs 256-262). -/
def Pallet.reserved_balance (cfg : RouterCfg σ) (s : σ) (currency_id who : Nat) : Nat :=
  if currency_id = cfg.nativeId then
    cfg.stp258Native.reserved_balance s who
  else
    cfg.stp258Currency.reserved_balance s currency_id who

/-- Embeds `Stp258CurrencyReservable::reserve` for `Pallet<T>`
(lib.rs 264-270). -/
def Pallet.reserve (cfg : RouterCfg σ) (s : σ) (currency_id who value : Nat) :
    Except DispatchError σ :=
  if currency_id = cfg.nativeId then
    cfg.stp258Native.reserve s who value
  else
    cfg.stp258Currency.reserve s currency_id who value

/-- Embeds `Stp258CurrencyReservable::unreserve` for `Pallet<T>`
(lib.rs 272-278). -/
def Pallet.unreserve (cfg : RouterCfg σ) (s : σ) (currency_id who value : Nat) : Nat × σ :=
  if currency_id = cfg.nativeId then
    cfg.stp258Native.unreserve s who value
  else
    cfg.stp258Currency.unreserve s currency_id who value

/-- Embeds `Stp258CurrencyReservable::repatriate_reserved` for `Pallet<T>`
(lib.rs 280-293). -/
def Pallet.repatriate_reserved (cfg : RouterCfg σ) (s : σ)
    (currency_id slashed beneficiary value : Nat) (status : BalanceStatus) :
    Except DispatchError (Nat × σ) :=
  if currency_id = cfg.nativeId then
    cfg.stp258Native.repatriate_reserved s slashed beneficiary value status
  else
    cfg.stp258Currency.repatriate_reserved s currency_id slashed beneficiary value status

/-- The `transfer_native_currency` extrinsic body after origin
resolution (lib.rs 111-122): a direct `T::Stp258Native::transfer` call
followed unconditionally by a `Transferred` event with the native id. -/
def Pallet.transfer_native_currency (cfg : RouterCfg σ) (s : σ) (from_acc to_acc amount : Nat) :
    Except DispatchError (σ × List Event) :=
  match cfg.stp258Native.transfer s from_acc to_acc amount with
  | Except.error e => Except.error e
  | Except.ok s1 =>
      Except.ok (s1, [Event.Transferred cfg.nativeId from_acc to_acc amount])

/-- The transactional interpretation of a router outcome: an `ok`
result installs the new state and deposits the events; a failed call is
rolled back by the host, leaving the pre-state and no events. -/
def applyOutcome (s : σ) (r : Except DispatchError (σ × List Event)) : σ × List Event :=
  match r with
  | Except.ok p => p
  | Except.error _ => (s, [])

/-- Embeds `CheckedSub::checked_sub` on the unsigned balance type. -/
def checkedSub (a b : Nat) : Option Nat :=
  if b ≤ a then some (a - b) else none

/-- The `frame_support::traits::Currency` + `ReservableCurrency`
capability consumed by `Stp258AssetAdapter` (lib.rs 393-484).
Imbalances are represented by the `Nat` amount they carry; `slash` and
`slash_reserved` return the `(credit, gap)` pair together with the
updated state, and `deposit_creating` / `withdraw` return their
imbalance alongside the state. -/
structure SetheumCurrencyIface (σ : Type) where
  minimum_balance : σ → Nat
  total_issuance : σ → Nat
  total_balance : σ → Nat → Nat
  free_balance : σ → Nat → Nat
  ensure_can_withdraw : σ → Nat → Nat → WithdrawReasons → Nat → Except DispatchError Unit
  transfer : σ → Nat → Nat → Nat → ExistenceRequirement → Except DispatchError σ
  deposit_creating : σ → Nat → Nat → Nat × σ
  withdraw : σ → Nat → Nat → WithdrawReasons → ExistenceRequirement →
      Except DispatchError (Nat × σ)
  can_slash : σ → Nat → Nat → Bool
  slash : σ → Nat → Nat → (Nat × Nat) × σ
  can_reserve : σ → Nat → Nat → Bool
  slash_reserved : σ → Nat → Nat → (Nat × Nat) × σ
  reserved_balance : σ → Nat → Nat
  reserve : σ → Nat → Nat → Except DispatchError σ
  unreserve : σ → Nat → Nat → Nat × σ
  repatriate_reserved : σ → Nat → Nat → Nat → BalanceStatus → Except DispatchError (Nat × σ)

/-- Embeds `Stp258AssetAdapter::minimum_balance` (lib.rs 402-404). -/
def Stp258AssetAdapter.minimum_balance (C : SetheumCurrencyIface σ) (s : σ) : Nat :=
  C.minimum_balance s

/-- Embeds `Stp258AssetAdapter::total_issuance` (lib.rs 406-408). -/
def Stp258AssetAdapter.total_issuance (C : SetheumCurrencyIface σ) (s : σ) : Nat :=
  C.total_issuance s

/-- Embeds `Stp258AssetAdapter::total_balance` (lib.rs 410-412). -/
def Stp258AssetAdapter.total_balance (C : SetheumCurrencyIface σ) (s : σ) (who : Nat) : Nat :=
  C.total_balance s who

/-- Embeds `Stp258AssetAdapter::free_balance` (lib.rs 414-416). -/
def Stp258AssetAdapter.free_balance (C : SetheumCurrencyIface σ) (s : σ) (who : Nat) : Nat :=
  C.free_balance s who

/-- Embeds `Stp258AssetAdapter::ensure_can_withdraw` (lib.rs 418-424):
`free_balance(who).checked_sub(amount)` failing with `BalanceTooLow`,
then the backend check with `WithdrawReasons::all()` and the computed
new balance. -/
def Stp258AssetAdapter.ensure_can_withdraw (C : SetheumCurrencyIface σ) (s : σ)
    (who amount : Nat) : Except DispatchError Unit :=
  match checkedSub (Stp258AssetAdapter.free_balance C s who) amount with
  | none => Except.error DispatchError.balanceTooLow
  | some new_balance => C.ensure_can_withdraw s who amount WithdrawReasons.all new_balance

/-- Embeds `Stp258AssetAdapter::transfer` (lib.rs 426-428). -/
def Stp258AssetAdapter.transfer (C : SetheumCurrencyIface σ) (s : σ)
    (from_acc to_acc amount : Nat) : Except DispatchError σ :=
  C.transfer s from_acc to_acc amount ExistenceRequirement.AllowDeath

/-- Embeds `Stp258AssetAdapter::deposit` (lib.rs 430-433): runs
`deposit_creating`, drops the returned imbalance and answers `Ok(())`
unconditionally. -/
def Stp258AssetAdapter.deposit (C : SetheumCurrencyIface σ) (s : σ) (who amount : Nat) :
    Except DispatchError σ :=
  Except.ok (C.deposit_creating s who amount).2

/-- Embeds `Stp258AssetAdapter::withdraw` (lib.rs 435-437): backend withdraw
with `WithdrawReasons::all()` and `AllowDeath`, the imbalance mapped
away. -/
def Stp258AssetAdapter.withdraw (C : SetheumCurrencyIface σ) (s : σ) (who amount : Nat) :
    Except DispatchError σ :=
  (C.withdraw s who amount WithdrawReasons.all ExistenceRequirement.AllowDeath).map
    (fun p => p.2)

/-- Embeds `Stp258AssetAdapter::can_slash` (lib.rs 439-441). -/
def Stp258AssetAdapter.can_slash (C : SetheumCurrencyIface σ) (s : σ) (who amount : Nat) :
    Bool :=
  C.can_slash s who amount

/-- Embeds `Stp258AssetAdapter::slash` (lib.rs 443-446): the backend returns
`(credit, gap)`; the credit is discarded and only the gap is
returned. -/
def Stp258AssetAdapter.slash (C : SetheumCurrencyIface σ) (s : σ) (who amount : Nat) :
    Nat × σ :=
  ((C.slash s who amount).1.2, (C.slash s who amount).2)

/-- Embeds `Stp258AssetAdapter::can_reserve` (lib.rs 456-458). -/
def Stp258AssetAdapter.can_reserve (C : SetheumCurrencyIface σ) (s : σ) (who value : Nat) :
    Bool :=
  C.can_reserve s who value

/-- Embeds `Stp258AssetAdapter::slash_reserved` (lib.rs 460-463): same
credit-discarding translation as `slash`. -/
def Stp258AssetAdapter.slash_reserved (C : SetheumCurrencyIface σ) (s : σ) (who value : Nat) :
    Nat × σ :=
  ((C.slash_reserved s who value).1.2, (C.slash_reserved s who value).2)

/-- Embeds `Stp258AssetAdapter::reserved_balance` (lib.rs 465-467). -/
def Stp258AssetAdapter.reserved_balance (C : SetheumCurrencyIface σ) (s : σ) (who : Nat) :
    Nat :=
  C.reserved_balance s who

/-- Embeds `Stp258AssetAdapter::reserve` (lib.rs 469-471). -/
def Stp258AssetAdapter.reserve (C : SetheumCurrencyIface σ) (s : σ) (who value : Nat) :
    Except DispatchError σ :=
  C.reserve s who value

/-- Embeds `Stp258AssetAdapter::unreserve` (lib.rs 473-475). -/
def Stp258AssetAdapter.unreserve (C : SetheumCurrencyIface σ) (s : σ) (who value : Nat) :
    Nat × σ :=
  C.unreserve s who value

/-- Embeds `Stp258AssetAdapter::repatriate_reserved` (lib.rs 477-484): direct
delegation. -/
def Stp258AssetAdapter.repatriate_reserved (C : SetheumCurrencyIface σ) (s : σ)
    (slashed beneficiary value : Nat) (status : BalanceStatus) :
    Except DispatchError (Nat × σ) :=
  C.repatriate_reserved s slashed beneficiary value status

/-- A per-account balance record of a backend ledger: free and reserved
buckets. -/
structure ModelAccount where
  free : Nat
  reserved : Nat
deriving DecidableEq

/-- Modelled from the spec: the per-asset ledger state owned by a
backend (spec section 3, "Per-account-per-asset state"), with the
account map and the asset's total issuance.  The backends themselves
(`pallet_balances` behind `Stp258AssetAdapter`, and the multi-asset
`Stp258Currency` implementation) are not part of this repository's
`src/`; this reference ledger follows the interface contracts of spec
sections 4 and 6. -/
structure ModelState where
  accounts : Nat → ModelAccount
  issuance : Nat

/-- Replace one account record in a ledger. -/
def ModelState.setAccount (m : ModelState) (w : Nat) (a : ModelAccount) : ModelState :=
  { m with accounts := fun x => if x = w then a else m.accounts x }

/-- Modelled from the spec: free-balance read. -/
def ModelState.free_balance (m : ModelState) (w : Nat) : Nat :=
  (m.accounts w).free

/-- Modelled from the spec: reserved-balance read. -/
def ModelState.reserved_balance (m : ModelState) (w : Nat) : Nat :=
  (m.accounts w).reserved

/-- Modelled from the spec: `total_balance = free + reserved`
(spec section 3 invariant). -/
def ModelState.total_balance (m : ModelState) (w : Nat) : Nat :=
  (m.accounts w).free + (m.accounts w).reserved

/-- Modelled from the spec: withdrawal feasibility is an
insufficient-funds check against the free balance. -/
def ModelState.ensure_can_withdraw (m : ModelState) (w v : Nat) :
    Except DispatchError Unit :=
  if v ≤ m.free_balance w then Except.ok () else Except.error DispatchError.balanceTooLow

/-- Modelled from the spec: transfer moves `v` of free balance from one
account to the other, failing on insufficient funds. -/
def ModelState.transfer (m : ModelState) (f t v : Nat) : Except DispatchError ModelState :=
  if v ≤ m.free_balance f then
    let m1 := m.setAccount f { m.accounts f with free := (m.accounts f).free - v }
    Except.ok (m1.setAccount t { m1.accounts t with free := (m1.accounts t).free + v })
  else
    Except.error (DispatchError.other 1)

/-- Modelled from the spec: deposit credits the free balance and the
issuance, creating the account if absent; it never fails. -/
def ModelState.deposit (m : ModelState) (w v : Nat) : Except DispatchError ModelState :=
  Except.ok
    { m.setAccount w { m.accounts w with free := (m.accounts w).free + v } with
      issuance := m.issuance + v }

/-- Modelled from the spec: withdraw debits the free balance and the
issuance, failing on insufficient funds. -/
def ModelState.withdraw (m : ModelState) (w v : Nat) : Except DispatchError ModelState :=
  if v ≤ m.free_balance w then
    Except.ok
      { m.setAccount w { m.accounts w with free := (m.accounts w).free - v } with
        issuance := m.issuance - v }
  else
    Except.error (DispatchError.other 2)

/-- Modelled from the spec: slashability predicate. -/
def ModelState.can_slash (m : ModelState) (w v : Nat) : Bool :=
  v ≤ m.free_balance w

/-- Modelled from the spec: best-effort slash removes
`min v free` from the free balance and returns the gap; never fails. -/
def ModelState.slash (m : ModelState) (w v : Nat) : Nat × ModelState :=
  let removed := min v (m.free_balance w)
  (v - removed,
    { m.setAccount w { m.accounts w with free := (m.accounts w).free - removed } with
      issuance := m.issuance - removed })

/-- Modelled from the spec: reservability predicate. -/
def ModelState.can_reserve (m : ModelState) (w v : Nat) : Bool :=
  v ≤ m.free_balance w

/-- Modelled from the spec: reserve moves `v` from free to reserved,
failing on insufficient free balance. -/
def ModelState.reserve (m : ModelState) (w v : Nat) : Except DispatchError ModelState :=
  if v ≤ m.free_balance w then
    Except.ok (m.setAccount w
      { free := (m.accounts w).free - v, reserved := (m.accounts w).reserved + v })
  else
    Except.error (DispatchError.other 3)

/-- Modelled from the spec: unreserve moves up to `v` back from
reserved to free and returns the shortfall; never fails. -/
def ModelState.unreserve (m : ModelState) (w v : Nat) : Nat × ModelState :=
  let moved := min v (m.reserved_balance w)
  (v - moved,
    m.setAccount w
      { free := (m.accounts w).free + moved, reserved := (m.accounts w).reserved - moved })

/-- Modelled from the spec: slash_reserved removes up to `v` from the
reserved balance and returns the gap; never fails. -/
def ModelState.slash_reserved (m : ModelState) (w v : Nat) : Nat × ModelState :=
  let removed := min v (m.reserved_balance w)
  (v - removed,
    { m.setAccount w { m.accounts w with reserved := (m.accounts w).reserved - removed } with
      issuance := m.issuance - removed })

/-- Modelled from the spec: `repatriate_reserved` (spec sections 4.2 and
8) moves `min value reserved(slashed)` from the slashed account's
reserved bucket into the beneficiary's bucket selected by `status`, and
returns the shortfall as `Ok`. -/
def ModelState.repatriate_reserved (m : ModelState) (slashed beneficiary value : Nat)
    (status : BalanceStatus) : Except DispatchError (Nat × ModelState) :=
  let moved := min value (m.reserved_balance slashed)
  let m1 := m.setAccount slashed
    { m.accounts slashed with reserved := (m.accounts slashed).reserved - moved }
  let m2 :=
    match status with
    | BalanceStatus.Free =>
        m1.setAccount beneficiary
          { m1.accounts beneficiary with free := (m1.accounts beneficiary).free + moved }
    | BalanceStatus.Reserved =>
        m1.setAccount beneficiary
          { m1.accounts beneficiary with
            reserved := (m1.accounts beneficiary).reserved + moved }
  Except.ok (value - moved, m2)

/-- The whole runtime storage when both backends are instantiated with
the reference ledger: the native single-asset ledger plus one ledger per
multi-asset currency id. -/
structure LedgerState where
  native : ModelState
  multi : Nat → ModelState

/-- Replace the ledger of one multi-asset currency. -/
def LedgerState.setMulti (s : LedgerState) (id : Nat) (m : ModelState) : LedgerState :=
  { s with multi := fun j => if j = id then m else s.multi j }

/-- Replace the native ledger. -/
def LedgerState.setNative (s : LedgerState) (m : ModelState) : LedgerState :=
  { s with native := m }

/-- The reference native backend: the ledger operations acting on the
`native` component of the shared state. -/
def nativeModel : Stp258AssetIface LedgerState where
  minimum_balance := fun _ => 2
  total_issuance := fun s => s.native.issuance
  total_balance := fun s w => s.native.total_balance w
  free_balance := fun s w => s.native.free_balance w
  ensure_can_withdraw := fun s w v => s.native.ensure_can_withdraw w v
  transfer := fun s f t v => (s.native.transfer f t v).map (fun m => { s with native := m })
  deposit := fun s w v => (s.native.deposit w v).map (fun m => { s with native := m })
  withdraw := fun s w v => (s.native.withdraw w v).map (fun m => { s with native := m })
  can_slash := fun s w v => s.native.can_slash w v
  slash := fun s w v =>
    ((s.native.slash w v).1, { s with native := (s.native.slash w v).2 })
  can_reserve := fun s w v => s.native.can_reserve w v
  slash_reserved := fun s w v =>
    ((s.native.slash_reserved w v).1, { s with native := (s.native.slash_reserved w v).2 })
  reserved_balance := fun s w => s.native.reserved_balance w
  reserve := fun s w v => (s.native.reserve w v).map (fun m => { s with native := m })
  unreserve := fun s w v =>
    ((s.native.unreserve w v).1, { s with native := (s.native.unreserve w v).2 })
  repatriate_reserved := fun s a b v st =>
    (s.native.repatriate_reserved a b v st).map (fun p => (p.1, { s with native := p.2 }))

/-- The reference multi-asset backend: per-currency ledger operations on
the `multi` component of the shared state.  Its `base_unit` is a
per-currency constant distinct from its `minimum_balance`. -/
def multiModel : Stp258CurrencyIface LedgerState where
  base_unit := fun _ id => id + 10
  minimum_balance := fun _ _ => 1
  total_issuance := fun s id => (s.multi id).issuance
  total_balance := fun s id w => (s.multi id).total_balance w
  free_balance := fun s id w => (s.multi id).free_balance w
  ensure_can_withdraw := fun s id w v => (s.multi id).ensure_can_withdraw w v
  transfer := fun s id f t v => ((s.multi id).transfer f t v).map (s.setMulti id)
  deposit := fun s id w v => ((s.multi id).deposit w v).map (s.setMulti id)
  withdraw := fun s id w v => ((s.multi id).withdraw w v).map (s.setMulti id)
  can_slash := fun s id w v => (s.multi id).can_slash w v
  slash := fun s id w v =>
    (((s.multi id).slash w v).1, s.setMulti id ((s.multi id).slash w v).2)
  can_reserve := fun s id w v => (s.multi id).can_reserve w v
  slash_reserved := fun s id w v =>
    (((s.multi id).slash_reserved w v).1, s.setMulti id ((s.multi id).slash_reserved w v).2)
  reserved_balance := fun s id w => (s.multi id).reserved_balance w
  reserve := fun s id w v => ((s.multi id).reserve w v).map (s.setMulti id)
  unreserve := fun s id w v =>
    (((s.multi id).unreserve w v).1, s.setMulti id ((s.multi id).unreserve w v).2)
  repatriate_reserved := fun s id a b v st =>
    ((s.multi id).repatriate_reserved a b v st).map (fun p => (p.1, s.setMulti id p.2))

/-- The router instantiated with the reference ledgers; native id 0. -/
def modelCfg : RouterCfg LedgerState where
  nativeId := 0
  stp258Native := nativeModel
  stp258Currency := multiModel

/-- A `frame_support::traits::Currency`-style backend built over the
reference ledger, used to exercise `Stp258AssetAdapter`: `slash` and
`slash_reserved` return the `(credit, gap)` pair convention the adapter
has to translate. -/
def modelSetheum : SetheumCurrencyIface ModelState where
  minimum_balance := fun _ => 2
  total_issuance := fun m => m.issuance
  total_balance := fun m w => m.total_balance w
  free_balance := fun m w => m.free_balance w
  ensure_can_withdraw := fun m w v _reasons _newBalance => m.ensure_can_withdraw w v
  transfer := fun m f t v _er => m.transfer f t v
  deposit_creating := fun m w v =>
    (v, { m.setAccount w { m.accounts w with free := (m.accounts w).free + v } with
          issuance := m.issuance + v })
  withdraw := fun m w v _reasons _er => (m.withdraw w v).map (fun m1 => (v, m1))
  can_slash := fun m w v => m.can_slash w v
  slash := fun m w v => ((min v (m.free_balance w), (m.slash w v).1), (m.slash w v).2)
  can_reserve := fun m w v => m.can_reserve w v
  slash_reserved := fun m w v =>
    ((min v (m.reserved_balance w), (m.slash_reserved w v).1), (m.slash_reserved w v).2)
  reserved_balance := fun m w => m.reserved_balance w
  reserve := fun m w v => m.reserve w v
  unreserve := fun m w v => m.unreserve w v
  repatriate_reserved := fun m a b v st => m.repatriate_reserved a b v st

/-- A `Unit`-state backend pair whose native `transfer` always fails:
legal under the `Config` bounds, since no trait law forces the native
backend to accept zero-amount transfers. -/
def errNative : Stp258AssetIface Unit where
  minimum_balance := fun _ => 0
  total_issuance := fun _ => 0
  total_balance := fun _ _ => 0
  free_balance := fun _ _ => 0
  ensure_can_withdraw := fun _ _ _ => Except.ok ()
  transfer := fun _ _ _ _ => Except.error (DispatchError.other 7)
  deposit := fun _ _ _ => Except.ok ()
  withdraw := fun _ _ _ => Except.ok ()
  can_slash := fun _ _ _ => false
  slash := fun _ _ v => (v, ())
  can_reserve := fun _ _ _ => false
  slash_reserved := fun _ _ v => (v, ())
  reserved_balance := fun _ _ => 0
  reserve := fun _ _ _ => Except.ok ()
  unreserve := fun _ _ v => (v, ())
  repatriate_reserved := fun _ _ _ v _ => Except.ok (v, ())

/-- A trivial `Unit`-state multi-asset backend. -/
def errMulti : Stp258CurrencyIface Unit where
  base_unit := fun _ _ => 0
  minimum_balance := fun _ _ => 0
  total_issuance := fun _ _ => 0
  total_balance := fun _ _ _ => 0
  free_balance := fun _ _ _ => 0
  ensure_can_withdraw := fun _ _ _ _ => Except.ok ()
  transfer := fun _ _ _ _ _ => Except.ok ()
  deposit := fun _ _ _ _ => Except.ok ()
  withdraw := fun _ _ _ _ => Except.ok ()
  can_slash := fun _ _ _ _ => false
  slash := fun _ _ _ v => (v, ())
  can_reserve := fun _ _ _ _ => false
  slash_reserved := fun _ _ _ v => (v, ())
  reserved_balance := fun _ _ _ => 0
  reserve := fun _ _ _ _ => Except.ok ()
  unreserve := fun _ _ _ v => (v, ())
  repatriate_reserved := fun _ _ _ _ v _ => Except.ok (v, ())

/-- Router over the failing-native-transfer backends, native id 0. -/
def errCfg : RouterCfg Unit where
  nativeId := 0
  stp258Native := errNative
  stp258Currency := errMulti

/-- The all-zero per-asset ledger. -/
def zeroLedger : ModelState where
  accounts := fun _ => { free := 0, reserved := 0 }
  issuance := 0

/-- The all-zero runtime state of the reference router. -/
def exState : LedgerState where
  native := zeroLedger
  multi := fun _ => zeroLedger

/-- A runtime state with funds: under every non-native currency,
account 1 holds 5 free / 50 reserved and every other account 7 free /
3 reserved; the native ledger gives every account 100 free /
40 reserved. -/
def exState8 : LedgerState where
  native := { accounts := fun _ => { free := 100, reserved := 40 }, issuance := 1000 }
  multi := fun _ =>
    { accounts := fun w => if w = 1 then { free := 5, reserved := 50 } else { free := 7, reserved := 3 }
      issuance := 500 }

/-- An example single-asset ledger: account 1 holds 30 free /
40 reserved. -/
def m0 : ModelState where
  accounts := fun w => if w = 1 then { free := 30, reserved := 40 } else { free := 0, reserved := 0 }
  issuance := 100

/-- The event-attaching continuation of `transfer_native_currency`: pair
the successful backend state with the `Transferred` event the extrinsic
deposits. -/
def withTransferredEvent (cfg : RouterCfg σ) (from_acc to_acc amount : Nat) :
    σ → σ × List Event :=
  fun s1 => (s1, [Event.Transferred cfg.nativeId from_acc to_acc amount])

/-- The beneficiary bucket selected by a `BalanceStatus`, read through
the router. -/
def bucketBalance (cfg : RouterCfg σ) (s : σ) (currency_id who : Nat) (st : BalanceStatus) :
    Nat :=
  match st with
  | BalanceStatus.Free => Pallet.free_balance cfg s currency_id who
  | BalanceStatus.Reserved => Pallet.reserved_balance cfg s currency_id who

/-- The bucket of a `ModelState` account selected by a `BalanceStatus`. -/
def ModelState.bucket (m : ModelState) (w : Nat) (st : BalanceStatus) : Nat :=
  match st with
  | BalanceStatus.Free => m.free_balance w
  | BalanceStatus.Reserved => m.reserved_balance w

theorem Pallet.transfer_map_fst (cfg : RouterCfg σ) (s : σ)
    (currency_id from_acc to_acc amount : Nat) (hv : amount ≠ 0) (hft : from_acc ≠ to_acc) :
    (Pallet.transfer cfg s currency_id from_acc to_acc amount).map Prod.fst =
      Pallet.routedTransfer cfg s currency_id from_acc to_acc amount := by
  unfold Pallet.transfer
  rw [if_neg (by simp [hv, hft])]
  cases Pallet.routedTransfer cfg s currency_id from_acc to_acc amount <;> rfl

theorem Pallet.deposit_map_fst (cfg : RouterCfg σ) (s : σ)
    (currency_id who amount : Nat) (hv : amount ≠ 0) :
    (Pallet.deposit cfg s currency_id who amount).map Prod.fst =
      Pallet.routedDeposit cfg s currency_id who amount := by
  unfold Pallet.deposit
  rw [if_neg hv]
  cases Pallet.routedDeposit cfg s currency_id who amount <;> rfl

theorem Pallet.withdraw_map_fst (cfg : RouterCfg σ) (s : σ)
    (currency_id who amount : Nat) (hv : amount ≠ 0) :
    (Pallet.withdraw cfg s currency_id who amount).map Prod.fst =
      Pallet.routedWithdraw cfg s currency_id who amount := by
  unfold Pallet.withdraw
  rw [if_neg hv]
  cases Pallet.routedWithdraw cfg s currency_id who amount <;> rfl

/-- Claim C2: `Router.transfer` with `amount == 0` or `from == to`
returns success immediately, makes no backend call (the result is
`Ok((s, []))` for every configuration, without consulting either
backend), changes no state and emits no event. -/
theorem C2_transfer_short_circuit (cfg : RouterCfg σ) (s : σ)
    (currency_id from_acc to_acc amount : Nat)
    (h : amount = 0 ∨ from_acc = to_acc) :
    Pallet.transfer cfg s currency_id from_acc to_acc amount = Except.ok (s, []) := by
  unfold Pallet.transfer
  rw [if_pos h]

/-- Witness for C2: a self transfer of a nonzero amount on the
reference router is the identity outcome with no event. -/
theorem C2_transfer_short_circuit_witness :
    Pallet.transfer modelCfg exState 0 1 1 5 = Except.ok (exState, []) :=
  C2_transfer_short_circuit modelCfg exState 0 1 1 5 (Or.inr rfl)

/-- Claim C3: `Router.transfer` with `amount != 0` and `from != to`
performs the routed backend transfer; on backend success it returns that
state together with exactly one `Transferred(asset, from, to, amount)`
event, and on backend failure it propagates the error unchanged, so the
transactional outcome is the unchanged pre-state with no event. -/
theorem C3_transfer_routed (cfg : RouterCfg σ) (s : σ)
    (currency_id from_acc to_acc amount : Nat)
    (hv : amount ≠ 0) (hft : from_acc ≠ to_acc) :
    (∀ s1, Pallet.routedTransfer cfg s currency_id from_acc to_acc amount = Except.ok s1 →
      Pallet.transfer cfg s currency_id from_acc to_acc amount =
        Except.ok (s1, [Event.Transferred currency_id from_acc to_acc amount])) ∧
    (∀ e, Pallet.routedTransfer cfg s currency_id from_acc to_acc amount = Except.error e →
      Pallet.transfer cfg s currency_id from_acc to_acc amount = Except.error e ∧
      applyOutcome s (Pallet.transfer cfg s currency_id from_acc to_acc amount) = (s, [])) := by
  unfold Pallet.transfer
  rw [if_neg (by simp [hv, hft])]
  constructor
  · intro s1 h1
    rw [h1]
  · intro e h1
    rw [h1]
    exact ⟨rfl, rfl⟩

/-- Witness for C3: on the empty reference ledger a nonzero transfer of
a non-native currency fails in the backend with its insufficient-funds
error, the router forwards exactly that error, and the transactional
outcome is the unchanged state with no event. -/
theorem C3_transfer_routed_witness :
    Pallet.transfer modelCfg exState 1 1 2 3 = Except.error (DispatchError.other 1) ∧
    applyOutcome exState (Pallet.transfer modelCfg exState 1 1 2 3) = (exState, []) :=
  (C3_transfer_routed modelCfg exState 1 1 2 3 (by decide) (by decide)).2
    (DispatchError.other 1) rfl

/-- Claim C4: `Router.deposit` and `Router.withdraw` with `amount == 0`
return success with the state unchanged and no event; with
`amount != 0` they perform the routed backend call and on success emit
exactly one `Deposited(asset, who, amount)` respectively
`Withdrawn(asset, who, amount)` event, while on backend failure the
error propagates, no event is emitted and the transactional outcome
keeps the pre-state. -/
theorem C4_deposit_withdraw (cfg : RouterCfg σ) (s : σ)
    (currency_id who a0 a1 : Nat) (h0 : a0 = 0) (h1 : a1 ≠ 0) :
    Pallet.deposit cfg s currency_id who a0 = Except.ok (s, []) ∧
    Pallet.withdraw cfg s currency_id who a0 = Except.ok (s, []) ∧
    (∀ s1, Pallet.routedDeposit cfg s currency_id who a1 = Except.ok s1 →
      Pallet.deposit cfg s currency_id who a1 =
        Except.ok (s1, [Event.Deposited currency_id who a1])) ∧
    (∀ e, Pallet.routedDeposit cfg s currency_id who a1 = Except.error e →
      Pallet.deposit cfg s currency_id who a1 = Except.error e ∧
      applyOutcome s (Pallet.deposit cfg s currency_id who a1) = (s, [])) ∧
    (∀ s1, Pallet.routedWithdraw cfg s currency_id who a1 = Except.ok s1 →
      Pallet.withdraw cfg s currency_id who a1 =
        Except.ok (s1, [Event.Withdrawn currency_id who a1])) ∧
    (∀ e, Pallet.routedWithdraw cfg s currency_id who a1 = Except.error e →
      Pallet.withdraw cfg s currency_id who a1 = Except.error e ∧
      applyOutcome s (Pallet.withdraw cfg s currency_id who a1) = (s, [])) := by
  subst h0
  refine ⟨?_, ?_, ?_, ?_, ?_, ?_⟩
  · unfold Pallet.deposit
    rw [if_pos rfl]
  · unfold Pallet.withdraw
    rw [if_pos rfl]
  · intro s1 hd
    unfold Pallet.deposit
    rw [if_neg h1, hd]
  · intro e hd
    unfold Pallet.deposit
    rw [if_neg h1, hd]
    exact ⟨rfl, rfl⟩
  · intro s1 hd
    unfold Pallet.withdraw
    rw [if_neg h1, hd]
  · intro e hd
    unfold Pallet.withdraw
    rw [if_neg h1, hd]
    exact ⟨rfl, rfl⟩

/-- Witness for C4: zero deposits and withdrawals are no-ops on the
reference router, and a failing nonzero withdrawal propagates the
backend error with no event and no state change. -/
theorem C4_deposit_withdraw_witness :
    Pallet.deposit modelCfg exState 1 4 0 = Except.ok (exState, []) ∧
    Pallet.withdraw modelCfg exState 1 4 0 = Except.ok (exState, []) ∧
    Pallet.withdraw modelCfg exState 1 4 5 = Except.error (DispatchError.other 2) ∧
    applyOutcome exState (Pallet.withdraw modelCfg exState 1 4 5) = (exState, []) := by
  have h := C4_deposit_withdraw modelCfg exState 1 4 0 5 rfl (by decide)
  exact ⟨h.1, h.2.1, h.2.2.2.2.2 (DispatchError.other 2) rfl⟩

/-- Claim C9: the `transfer_native_currency` extrinsic applies no
zero-amount or self-transfer short-circuit: it always performs the
direct native backend transfer and, whenever that call succeeds, emits a
`Transferred` event with the native id — in particular when
`amount == 0` or the destination equals the caller, where
`Router.transfer` on the same arguments returns `Ok` with no backend
call and no event. -/
theorem C9_transfer_native_currency (cfg : RouterCfg σ) (s : σ)
    (from_acc to_acc amount : Nat) (hshort : amount = 0 ∨ from_acc = to_acc) :
    Pallet.transfer_native_currency cfg s from_acc to_acc amount =
      (cfg.stp258Native.transfer s from_acc to_acc amount).map
        (withTransferredEvent cfg from_acc to_acc amount) ∧
    Pallet.transfer cfg s cfg.nativeId from_acc to_acc amount = Except.ok (s, []) := by
  constructor
  · unfold Pallet.transfer_native_currency withTransferredEvent
    cases cfg.stp258Native.transfer s from_acc to_acc amount <;> rfl
  · unfold Pallet.transfer
    rw [if_pos hshort]

/-- Witness for C9: a zero-amount self transfer through the extrinsic
still calls the backend and emits on its success, while the router's
own transfer with the same arguments is the silent no-op. -/
theorem C9_transfer_native_currency_witness :
    Pallet.transfer_native_currency modelCfg exState 1 1 0 =
      (modelCfg.stp258Native.transfer exState 1 1 0).map
        (withTransferredEvent modelCfg 1 1 0) ∧
    Pallet.transfer modelCfg exState modelCfg.nativeId 1 1 0 = Except.ok (exState, []) :=
  C9_transfer_native_currency modelCfg exState 1 1 0 (Or.inl rfl)

/-- Counterexample to claim C1 as stated: the routing equivalence does
not hold for all arguments of `transfer`.  With a conforming native
backend whose `transfer` rejects every call, `Router.transfer` at the
native id with `amount == 0` short-circuits to `Ok` without any backend
call, while calling the native backend directly with the same arguments
returns the backend's error, so the two results differ. -/
theorem C1_routing_counterexample :
    ¬ ((Pallet.transfer errCfg () errCfg.nativeId 1 2 0).map Prod.fst =
        errCfg.stp258Native.transfer () 1 2 0) := by
  intro h
  simp [Pallet.transfer, errCfg, errNative, Except.map] at h

/-- Claim C1, amended: the routing rule
`asset == native_id ⇒ Stp258Native, else ⇒ Stp258Currency` holds exactly
for every operation, except that for `transfer` (when `amount != 0` and
`from != to`) and for `deposit`/`withdraw` (when `amount != 0`) the
router's result agrees with the selected backend's result modulo the
single router-level event attached on success, and the guarded cases
(`amount == 0`, or `from == to` for `transfer`) do not consult the
backend at all (claim C2). -/
theorem C1_routing_amended (cfg : RouterCfg σ) (s : σ)
    (idM w f t v a b : Nat) (st : BalanceStatus)
    (hM : idM ≠ cfg.nativeId) (hv : v ≠ 0) (hft : f ≠ t) :
    Pallet.base_unit cfg s cfg.nativeId = cfg.stp258Native.minimum_balance s ∧
    Pallet.base_unit cfg s idM = cfg.stp258Currency.base_unit s idM ∧
    Pallet.minimum_balance cfg s cfg.nativeId = cfg.stp258Native.minimum_balance s ∧
    Pallet.minimum_balance cfg s idM = cfg.stp258Currency.minimum_balance s idM ∧
    Pallet.total_issuance cfg s cfg.nativeId = cfg.stp258Native.total_issuance s ∧
    Pallet.total_issuance cfg s idM = cfg.stp258Currency.total_issuance s idM ∧
    Pallet.total_balance cfg s cfg.nativeId w = cfg.stp258Native.total_balance s w ∧
    Pallet.total_balance cfg s idM w = cfg.stp258Currency.total_balance s idM w ∧
    Pallet.free_balance cfg s cfg.nativeId w = cfg.stp258Native.free_balance s w ∧
    Pallet.free_balance cfg s idM w = cfg.stp258Currency.free_balance s idM w ∧
    Pallet.ensure_can_withdraw cfg s cfg.nativeId w v =
      cfg.stp258Native.ensure_can_withdraw s w v ∧
    Pallet.ensure_can_withdraw cfg s idM w v =
      cfg.stp258Currency.ensure_can_withdraw s idM w v ∧
    (Pallet.transfer cfg s cfg.nativeId f t v).map Prod.fst =
      cfg.stp258Native.transfer s f t v ∧
    (Pallet.transfer cfg s idM f t v).map Prod.fst =
      cfg.stp258Currency.transfer s idM f t v ∧
    (Pallet.deposit cfg s cfg.nativeId w v).map Prod.fst = cfg.stp258Native.deposit s w v ∧
    (Pallet.deposit cfg s idM w v).map Prod.fst = cfg.stp258Currency.deposit s idM w v ∧
    (Pallet.withdraw cfg s cfg.nativeId w v).map Prod.fst = cfg.stp258Native.withdraw s w v ∧
    (Pallet.withdraw cfg s idM w v).map Prod.fst = cfg.stp258Currency.withdraw s idM w v ∧
    Pallet.can_slash cfg s cfg.nativeId w v = cfg.stp258Native.can_slash s w v ∧
    Pallet.can_slash cfg s idM w v = cfg.stp258Currency.can_slash s idM w v ∧
    Pallet.slash cfg s cfg.nativeId w v = cfg.stp258Native.slash s w v ∧
    Pallet.slash cfg s idM w v = cfg.stp258Currency.slash s idM w v ∧
    Pallet.can_reserve cfg s cfg.nativeId w v = cfg.stp258Native.can_reserve s w v ∧
    Pallet.can_reserve cfg s idM w v = cfg.stp258Currency.can_reserve s idM w v ∧
    Pallet.reserve cfg s cfg.nativeId w v = cfg.stp258Native.reserve s w v ∧
    Pallet.reserve cfg s idM w v = cfg.stp258Currency.reserve s idM w v ∧
    Pallet.unreserve cfg s cfg.nativeId w v = cfg.stp258Native.unreserve s w v ∧
    Pallet.unreserve cfg s idM w v = cfg.stp258Currency.unreserve s idM w v ∧
    Pallet.reserved_balance cfg s cfg.nativeId w = cfg.stp258Native.reserved_balance s w ∧
    Pallet.reserved_balance cfg s idM w = cfg.stp258Currency.reserved_balance s idM w ∧
    Pallet.slash_reserved cfg s cfg.nativeId w v = cfg.stp258Native.slash_reserved s w v ∧
    Pallet.slash_reserved cfg s idM w v = cfg.stp258Currency.slash_reserved s idM w v ∧
    Pallet.repatriate_reserved cfg s cfg.nativeId a b v st =
      cfg.stp258Native.repatriate_reserved s a b v st ∧
    Pallet.repatriate_reserved cfg s idM a b v st =
      cfg.stp258Currency.repatriate_reserved s idM a b v st := by
  have hTn : (Pallet.transfer cfg s cfg.nativeId f t v).map Prod.fst =
      cfg.stp258Native.transfer s f t v := by
    rw [Pallet.transfer_map_fst cfg s cfg.nativeId f t v hv hft]
    unfold Pallet.routedTransfer
    rw [if_pos rfl]
  have hTm : (Pallet.transfer cfg s idM f t v).map Prod.fst =
      cfg.stp258Currency.transfer s idM f t v := by
    rw [Pallet.transfer_map_fst cfg s idM f t v hv hft]
    unfold Pallet.routedTransfer
    rw [if_neg hM]
  have hDn : (Pallet.deposit cfg s cfg.nativeId w v).map Prod.fst =
      cfg.stp258Native.deposit s w v := by
    rw [Pallet.deposit_map_fst cfg s cfg.nativeId w v hv]
    unfold Pallet.routedDeposit
    rw [if_pos rfl]
  have hDm : (Pallet.deposit cfg s idM w v).map Prod.fst =
      cfg.stp258Currency.deposit s idM w v := by
    rw [Pallet.deposit_map_fst cfg s idM w v hv]
    unfold Pallet.routedDeposit
    rw [if_neg hM]
  have hWn : (Pallet.withdraw cfg s cfg.nativeId w v).map Prod.fst =
      cfg.stp258Native.withdraw s w v := by
    rw [Pallet.withdraw_map_fst cfg s cfg.nativeId w v hv]
    unfold Pallet.routedWithdraw
    rw [if_pos rfl]
  have hWm : (Pallet.withdraw cfg s idM w v).map Prod.fst =
      cfg.stp258Currency.withdraw s idM w v := by
    rw [Pallet.withdraw_map_fst cfg s idM w v hv]
    unfold Pallet.routedWithdraw
    rw [if_neg hM]
  refine ⟨?_, ?_, ?_, ?_, ?_, ?_, ?_, ?_, ?_, ?_, ?_, ?_, hTn, hTm, hDn, hDm, hWn, hWm,
    ?_, ?_, ?_, ?_, ?_, ?_, ?_, ?_, ?_, ?_, ?_, ?_, ?_, ?_, ?_, ?_⟩ <;>
    simp [Pallet.base_unit, Pallet.minimum_balance, Pallet.total_issuance,
      Pallet.total_balance, Pallet.free_balance, Pallet.ensure_can_withdraw,
      Pallet.can_slash, Pallet.slash, Pallet.can_reserve, Pallet.reserve,
      Pallet.unreserve, Pallet.reserved_balance, Pallet.slash_reserved,
      Pallet.repatriate_reserved, hM]

/-- Witness for the amended C1 on the reference router: the native id
routes `base_unit` to the native backend's minimum balance and a
non-native id routes it to the multi-asset backend. -/
theorem C1_routing_amended_witness :
    Pallet.base_unit modelCfg exState8 modelCfg.nativeId =
      modelCfg.stp258Native.minimum_balance exState8 ∧
    Pallet.base_unit modelCfg exState8 1 = modelCfg.stp258Currency.base_unit exState8 1 :=
  have h := C1_routing_amended modelCfg exState8 1 3 1 2 4 1 2 BalanceStatus.Free
    (by decide) (by decide) (by decide)
  ⟨h.1, h.2.1⟩

/-- Claim C5: `Stp258AssetAdapter::slash` and `slash_reserved` are total
(their return type carries no error): the adapter takes the backend's
`(credit, gap)` pair, discards the credit and returns only the gap, so —
under the backend contract `credit + gap = amount` and
`credit ≤ available` — the returned value is the requested amount minus
the amount actually removed, and the amount actually removed is at most
the available (free resp. reserved) balance. -/
theorem C5_slash_shortfall (C : SetheumCurrencyIface σ) (s : σ) (who amount : Nat)
    (h1 : (C.slash s who amount).1.1 + (C.slash s who amount).1.2 = amount)
    (h2 : (C.slash s who amount).1.1 ≤ C.free_balance s who)
    (h3 : (C.slash_reserved s who amount).1.1 + (C.slash_reserved s who amount).1.2 = amount)
    (h4 : (C.slash_reserved s who amount).1.1 ≤ C.reserved_balance s who) :
    Stp258AssetAdapter.slash C s who amount =
      ((C.slash s who amount).1.2, (C.slash s who amount).2) ∧
    (Stp258AssetAdapter.slash C s who amount).1 = amount - (C.slash s who amount).1.1 ∧
    amount - (Stp258AssetAdapter.slash C s who amount).1 ≤ C.free_balance s who ∧
    Stp258AssetAdapter.slash_reserved C s who amount =
      ((C.slash_reserved s who amount).1.2, (C.slash_reserved s who amount).2) ∧
    (Stp258AssetAdapter.slash_reserved C s who amount).1 =
      amount - (C.slash_reserved s who amount).1.1 ∧
    amount - (Stp258AssetAdapter.slash_reserved C s who amount).1 ≤
      C.reserved_balance s who := by
  refine ⟨rfl, ?_, ?_, rfl, ?_, ?_⟩
  · show (C.slash s who amount).1.2 = amount - (C.slash s who amount).1.1
    omega
  · show amount - (C.slash s who amount).1.2 ≤ C.free_balance s who
    omega
  · show (C.slash_reserved s who amount).1.2 = amount - (C.slash_reserved s who amount).1.1
    omega
  · show amount - (C.slash_reserved s who amount).1.2 ≤ C.reserved_balance s who
    omega

/-- Witness for C5: slashing 50 from an account with 30 free and
40 reserved in the reference backend returns gaps 20 and 10. -/
theorem C5_slash_shortfall_witness :
    Stp258AssetAdapter.slash modelSetheum m0 1 50 =
      ((modelSetheum.slash m0 1 50).1.2, (modelSetheum.slash m0 1 50).2) ∧
    (Stp258AssetAdapter.slash modelSetheum m0 1 50).1 =
      50 - (modelSetheum.slash m0 1 50).1.1 ∧
    50 - (Stp258AssetAdapter.slash modelSetheum m0 1 50).1 ≤
      modelSetheum.free_balance m0 1 ∧
    Stp258AssetAdapter.slash_reserved modelSetheum m0 1 50 =
      ((modelSetheum.slash_reserved m0 1 50).1.2, (modelSetheum.slash_reserved m0 1 50).2) ∧
    (Stp258AssetAdapter.slash_reserved modelSetheum m0 1 50).1 =
      50 - (modelSetheum.slash_reserved m0 1 50).1.1 ∧
    50 - (Stp258AssetAdapter.slash_reserved modelSetheum m0 1 50).1 ≤
      modelSetheum.reserved_balance m0 1 :=
  C5_slash_shortfall modelSetheum m0 1 50 (by decide) (by decide) (by decide) (by decide)

/-- Claim C6: the native adapter's `ensure_can_withdraw` computes
`free_balance(who) - amount` by checked subtraction; on underflow it
fails with `BalanceTooLow` (and performs nothing else), otherwise it
delegates to the backend's withdrawal-reason check with the computed
resulting balance. -/
theorem C6_ensure_can_withdraw (C : SetheumCurrencyIface σ) (s : σ) (who aLow aOk : Nat)
    (hLow : C.free_balance s who < aLow) (hOk : aOk ≤ C.free_balance s who) :
    Stp258AssetAdapter.ensure_can_withdraw C s who aLow =
      Except.error DispatchError.balanceTooLow ∧
    Stp258AssetAdapter.ensure_can_withdraw C s who aOk =
      C.ensure_can_withdraw s who aOk WithdrawReasons.all (C.free_balance s who - aOk) := by
  constructor
  · unfold Stp258AssetAdapter.ensure_can_withdraw Stp258AssetAdapter.free_balance checkedSub
    rw [if_neg (by omega)]
  · unfold Stp258AssetAdapter.ensure_can_withdraw Stp258AssetAdapter.free_balance checkedSub
    rw [if_pos hOk]

/-- Witness for C6: with 30 free, withdrawing 40 underflows to
`BalanceTooLow` and withdrawing 10 delegates with resulting balance
20. -/
theorem C6_ensure_can_withdraw_witness :
    Stp258AssetAdapter.ensure_can_withdraw modelSetheum m0 1 40 =
      Except.error DispatchError.balanceTooLow ∧
    Stp258AssetAdapter.ensure_can_withdraw modelSetheum m0 1 10 =
      modelSetheum.ensure_can_withdraw m0 1 10 WithdrawReasons.all
        (modelSetheum.free_balance m0 1 - 10) :=
  C6_ensure_can_withdraw modelSetheum m0 1 40 10 (by decide) (by decide)

/-- Claim C7: the native adapter's `deposit` invokes the backend's
`deposit_creating` and discards its imbalance, returning `Ok`
unconditionally — it never fails — and, `deposit_creating` creating the
account if absent (the backend contract, taken as the hypothesis that
the resulting total balance is positive), the account exists in the
returned state. -/
theorem C7_deposit_never_fails (C : SetheumCurrencyIface σ) (s : σ) (who amount : Nat)
    (h : 0 < C.total_balance (C.deposit_creating s who amount).2 who) :
    Stp258AssetAdapter.deposit C s who amount =
      Except.ok (C.deposit_creating s who amount).2 ∧
    ∃ s1, Stp258AssetAdapter.deposit C s who amount = Except.ok s1 ∧
      0 < C.total_balance s1 who :=
  ⟨rfl, (C.deposit_creating s who amount).2, rfl, h⟩

/-- Witness for C7: depositing 5 to an absent account on the empty
reference backend succeeds and leaves the account with positive total
balance. -/
theorem C7_deposit_never_fails_witness :
    Stp258AssetAdapter.deposit modelSetheum zeroLedger 1 5 =
      Except.ok (modelSetheum.deposit_creating zeroLedger 1 5).2 ∧
    0 < modelSetheum.total_balance (modelSetheum.deposit_creating zeroLedger 1 5).2 1 :=
  have h := C7_deposit_never_fails modelSetheum zeroLedger 1 5 (by decide)
  ⟨h.1, by decide⟩

theorem ModelState.repatriate_reserved_spec (m : ModelState) (A B v : Nat)
    (st : BalanceStatus) (hAB : A ≠ B) :
    ∃ m1, m.repatriate_reserved A B v st =
        Except.ok (v - min v (m.reserved_balance A), m1) ∧
      m1.reserved_balance A = m.reserved_balance A - min v (m.reserved_balance A) ∧
      m1.bucket B st = m.bucket B st + min v (m.reserved_balance A) := by
  refine ⟨_, rfl, ?_, ?_⟩
  · cases st <;>
      simp [ModelState.repatriate_reserved, ModelState.setAccount,
        ModelState.reserved_balance, ModelState.bucket, hAB, Ne.symm hAB]
  · cases st <;>
      simp [ModelState.repatriate_reserved, ModelState.setAccount,
        ModelState.reserved_balance, ModelState.free_balance, ModelState.bucket,
        hAB, Ne.symm hAB]

theorem modelCfg_repatriate_spec (s : LedgerState) (id A B v : Nat) (st : BalanceStatus)
    (hAB : A ≠ B) :
    ∃ s1, Pallet.repatriate_reserved modelCfg s id A B v st =
        Except.ok (v - min v (Pallet.reserved_balance modelCfg s id A), s1) ∧
      Pallet.reserved_balance modelCfg s1 id A =
        Pallet.reserved_balance modelCfg s id A -
          min v (Pallet.reserved_balance modelCfg s id A) ∧
      bucketBalance modelCfg s1 id B st =
        bucketBalance modelCfg s id B st +
          min v (Pallet.reserved_balance modelCfg s id A) := by
  by_cases hid : id = modelCfg.nativeId
  · obtain ⟨m1, he, hr, hb⟩ := ModelState.repatriate_reserved_spec s.native A B v st hAB
    have hsel : ∀ (t : LedgerState) (x : Nat),
        Pallet.reserved_balance modelCfg t id x = t.native.reserved_balance x := by
      intro t x
      unfold Pallet.reserved_balance
      rw [if_pos hid]
      exact rfl
    have hselF : ∀ (t : LedgerState) (x : Nat),
        Pallet.free_balance modelCfg t id x = t.native.free_balance x := by
      intro t x
      unfold Pallet.free_balance
      rw [if_pos hid]
      exact rfl
    refine ⟨s.setNative m1, ?_, ?_, ?_⟩
    · unfold Pallet.repatriate_reserved
      rw [if_pos hid, hsel s]
      show (s.native.repatriate_reserved A B v st).map
          (fun p : Nat × ModelState => (p.1, s.setNative p.2)) =
        Except.ok (v - min v (s.native.reserved_balance A), s.setNative m1)
      rw [he]
      exact rfl
    · rw [hsel (s.setNative m1), hsel s]
      exact hr
    · cases st
      · show Pallet.free_balance modelCfg (s.setNative m1) id B =
          Pallet.free_balance modelCfg s id B +
            min v (Pallet.reserved_balance modelCfg s id A)
        rw [hselF (s.setNative m1), hselF s, hsel s]
        exact hb
      · show Pallet.reserved_balance modelCfg (s.setNative m1) id B =
          Pallet.reserved_balance modelCfg s id B +
            min v (Pallet.reserved_balance modelCfg s id A)
        rw [hsel (s.setNative m1) B, hsel s B, hsel s A]
        exact hb
  · obtain ⟨m1, he, hr, hb⟩ := ModelState.repatriate_reserved_spec (s.multi id) A B v st hAB
    have hlookup : (s.setMulti id m1).multi id = m1 := by
      simp [LedgerState.setMulti]
    have hsel : ∀ (t : LedgerState) (x : Nat),
        Pallet.reserved_balance modelCfg t id x = (t.multi id).reserved_balance x := by
      intro t x
      unfold Pallet.reserved_balance
      rw [if_neg hid]
      exact rfl
    have hselF : ∀ (t : LedgerState) (x : Nat),
        Pallet.free_balance modelCfg t id x = (t.multi id).free_balance x := by
      intro t x
      unfold Pallet.free_balance
      rw [if_neg hid]
      exact rfl
    refine ⟨s.setMulti id m1, ?_, ?_, ?_⟩
    · unfold Pallet.repatriate_reserved
      rw [if_neg hid, hsel s]
      show ((s.multi id).repatriate_reserved A B v st).map
          (fun p : Nat × ModelState => (p.1, s.setMulti id p.2)) =
        Except.ok (v - min v ((s.multi id).reserved_balance A), s.setMulti id m1)
      rw [he]
      exact rfl
    · rw [hsel (s.setMulti id m1), hsel s, hlookup]
      exact hr
    · cases st
      · show Pallet.free_balance modelCfg (s.setMulti id m1) id B =
          Pallet.free_balance modelCfg s id B +
            min v (Pallet.reserved_balance modelCfg s id A)
        rw [hselF (s.setMulti id m1), hselF s, hsel s, hlookup]
        exact hb
      · show Pallet.reserved_balance modelCfg (s.setMulti id m1) id B =
          Pallet.reserved_balance modelCfg s id B +
            min v (Pallet.reserved_balance modelCfg s id A)
        rw [hsel (s.setMulti id m1) B, hsel s B, hsel s A, hlookup]
        exact hb

/-- Claim C8: `repatriate_reserved` on the router (backed on both routes
by the reference ledger, whose repatriation semantics is modelled from
the spec since the backends live outside this repository) reports
insufficiency as a returned shortfall, never as an error: with reserved
balance at least `v1` it moves exactly `v1` into the beneficiary bucket
selected by `status` and returns `Ok(0)`; with reserved balance
`r < v2` it moves `r`, zeroes the slashed account's reserved balance and
returns `Ok(v2 - r)`. -/
theorem C8_repatriate_shortfall (s : LedgerState) (id A B v1 v2 : Nat)
    (st : BalanceStatus) (hAB : A ≠ B)
    (h1 : v1 ≤ Pallet.reserved_balance modelCfg s id A)
    (h2 : Pallet.reserved_balance modelCfg s id A < v2) :
    (∃ s1, Pallet.repatriate_reserved modelCfg s id A B v1 st = Except.ok (0, s1) ∧
      Pallet.reserved_balance modelCfg s1 id A =
        Pallet.reserved_balance modelCfg s id A - v1 ∧
      bucketBalance modelCfg s1 id B st = bucketBalance modelCfg s id B st + v1) ∧
    (∃ s2, Pallet.repatriate_reserved modelCfg s id A B v2 st =
        Except.ok (v2 - Pallet.reserved_balance modelCfg s id A, s2) ∧
      Pallet.reserved_balance modelCfg s2 id A = 0 ∧
      bucketBalance modelCfg s2 id B st =
        bucketBalance modelCfg s id B st + Pallet.reserved_balance modelCfg s id A) := by
  constructor
  · obtain ⟨s1, he, hr, hb⟩ := modelCfg_repatriate_spec s id A B v1 st hAB
    rw [Nat.min_eq_left h1] at he hr hb
    rw [Nat.sub_self] at he
    exact ⟨s1, he, hr, hb⟩
  · obtain ⟨s2, he, hr, hb⟩ := modelCfg_repatriate_spec s id A B v2 st hAB
    rw [Nat.min_eq_right (Nat.le_of_lt h2)] at he hr hb
    rw [Nat.sub_self] at hr
    exact ⟨s2, he, hr, hb⟩

/-- Witness for C8, matching the spec's example: with 50 reserved under
non-native currency 1, repatriating 20 returns shortfall 0 and
repatriating 60 returns shortfall 10. -/
theorem C8_repatriate_shortfall_witness :
    (Pallet.repatriate_reserved modelCfg exState8 1 1 2 20 BalanceStatus.Free).map
      Prod.fst = Except.ok 0 ∧
    (Pallet.repatriate_reserved modelCfg exState8 1 1 2 60 BalanceStatus.Free).map
      Prod.fst = Except.ok 10 := by
  obtain ⟨⟨s1, he1, h1a, h1b⟩, ⟨s2, he2, h2a, h2b⟩⟩ :=
    C8_repatriate_shortfall exState8 1 1 2 20 60 BalanceStatus.Free
      (by decide) (by decide) (by decide)
  rw [he1, he2]
  exact ⟨rfl, rfl⟩

/-- Claim C10: for the native id, `Router.base_unit` returns the native
backend's `minimum_balance`, so it coincides with
`Router.minimum_balance` there; for any non-native id it is the
multi-asset backend's own `base_unit`, which need not equal its
`minimum_balance` — on the reference router they differ at currency 1. -/
theorem C10_base_unit_native (cfg : RouterCfg σ) (s : σ) (idM : Nat)
    (hM : idM ≠ cfg.nativeId) :
    Pallet.base_unit cfg s cfg.nativeId = Pallet.minimum_balance cfg s cfg.nativeId ∧
    Pallet.base_unit cfg s cfg.nativeId = cfg.stp258Native.minimum_balance s ∧
    Pallet.base_unit cfg s idM = cfg.stp258Currency.base_unit s idM ∧
    Pallet.base_unit modelCfg exState 1 ≠ Pallet.minimum_balance modelCfg exState 1 := by
  refine ⟨?_, ?_, ?_, by decide⟩
  · unfold Pallet.base_unit Pallet.minimum_balance
    rw [if_pos rfl, if_pos rfl]
  · unfold Pallet.base_unit
    rw [if_pos rfl]
  · unfold Pallet.base_unit
    rw [if_neg hM]

/-- Witness for C10 on the reference router: `base_unit` equals
`minimum_balance` at the native id and differs from it at currency 1,
where it is the multi-asset backend's `base_unit`. -/
theorem C10_base_unit_native_witness :
    Pallet.base_unit modelCfg exState modelCfg.nativeId =
      Pallet.minimum_balance modelCfg exState modelCfg.nativeId ∧
    Pallet.base_unit modelCfg exState modelCfg.nativeId =
      modelCfg.stp258Native.minimum_balance exState ∧
    Pallet.base_unit modelCfg exState 1 = modelCfg.stp258Currency.base_unit exState 1 ∧
    Pallet.base_unit modelCfg exState 1 ≠ Pallet.minimum_balance modelCfg exState 1 :=
  C10_base_unit_native modelCfg exState 1 (by decide)
